import Mathlib

/-!
Shallow embedding of the tumu feed-normalization layer.

Source files embedded here:
- src/tumu/core/models.py       (Article, FeedResult)
- src/tumu/feed/qiita.py        (QiitaParser.parse_feed and wrappers)
- src/tumu/feed/zenn.py         (ZennArticle, ZennFeedParser.parse_feed)
- src/tumu/feed/googlecloud.py  (GoogleCloudParser.parse_feed, get_feed)
- src/tumu/feed/aws.py          (AWSParser.parse_feed, get_feed)

Python strings are Lean String (slicing by code points matches Python
slicing); Python None-able values are Option; feedparser entries are an
explicit Entry record; datetime.now() is an explicit parameter threaded
through the functions that call it.
-/

namespace Tumu

/-! ## Python-side primitives -/

/-- Python string slicing s[:n]: the first n code points of s. -/
def pySlice (s : String) (n : Nat) : String := ⟨s.data.take n⟩

/-- Python truthiness of a possibly-absent string: None and the empty
string are falsy, every other string is truthy. -/
def pyTruthyStr : Option String → Bool
  | none => false
  | some s => !(s == "")

/-- A feedparser time tuple t[:6]: (year, month, day, hour, minute, second),
all Python ints. -/
structure TimeTuple where
  year : Int
  month : Int
  day : Int
  hour : Int
  minute : Int
  second : Int
deriving DecidableEq, Repr

/-- A validly constructed datetime.datetime (only the six fields the code
reads). Construction goes through mkDatetime, which enforces the ranges. -/
structure PyDateTime where
  year : Nat
  month : Nat
  day : Nat
  hour : Nat
  minute : Nat
  second : Nat
deriving DecidableEq, Repr

/-- Leap-year rule used by datetime for day-of-month validation. -/
def isLeap (y : Int) : Bool := (y % 4 == 0 && y % 100 != 0) || y % 400 == 0

/-- Number of days in a month, per the Gregorian calendar. -/
def daysInMonth (y m : Int) : Int :=
  if m == 2 then (if isLeap y then 29 else 28)
  else if m == 4 || m == 6 || m == 9 || m == 11 then 30
  else 31

/-- datetime(*t[:6]): returns the datetime when all six fields are in
range, and none when the constructor would raise (the bare except in the
adapters turns that raise into a fallback). -/
def mkDatetime (t : TimeTuple) : Option PyDateTime :=
  if 1 ≤ t.year ∧ t.year ≤ 9999 ∧ 1 ≤ t.month ∧ t.month ≤ 12
      ∧ 1 ≤ t.day ∧ t.day ≤ daysInMonth t.year t.month
      ∧ 0 ≤ t.hour ∧ t.hour ≤ 23 ∧ 0 ≤ t.minute ∧ t.minute ≤ 59
      ∧ 0 ≤ t.second ∧ t.second ≤ 59 then
    some ⟨t.year.toNat, t.month.toNat, t.day.toNat,
          t.hour.toNat, t.minute.toNat, t.second.toNat⟩
  else none

/-- Zero-padded decimal rendering, as strftime produces for %Y (width 4)
and %m, %d (width 2). -/
def padNum (w n : Nat) : String :=
  let s := toString n
  String.mk (List.replicate (w - s.length) '0') ++ s

/-- strftime with the Japanese date format used by every adapter. -/
def formatDateJa (d : PyDateTime) : String :=
  padNum 4 d.year ++ "年" ++ padNum 2 d.month ++ "月" ++ padNum 2 d.day ++ "日"

/-! ## core/models.py -/

/-- Article dataclass from core/models.py. -/
structure Article where
  title : String
  url : String
  published_date : String
  source : String
  summary : Option String
  author : Option String
  tags : Option (List String)
  image_url : Option String
deriving DecidableEq, Repr

/-- Article.short_summary: empty for a falsy summary, the first 150
characters plus "..." when longer than 150 characters, the summary itself
otherwise. -/
def Article.short_summary (a : Article) : String :=
  match a.summary with
  | none => ""
  | some s =>
    if s = "" then ""
    else if s.length > 150 then pySlice s 150 ++ "..." else s

/-- Values of the exchange dictionary produced by to_dict: strings, string
lists, or null. The embedding needs null only to state that to_dict never
produces it. -/
inductive JValue where
  | str : String → JValue
  | list : List String → JValue
  | null : JValue
deriving DecidableEq, Repr

/-- Whether a JValue is null. -/
def JValue.isNull : JValue → Bool
  | .null => true
  | _ => false

/-- Article.to_dict. The Python expressions author or "", tags or [] and
image_url or "" map None to the default; a present-but-falsy value (empty
string, empty list) maps to the same default value, so getD is
extensionally the same function. -/
def Article.to_dict (a : Article) : List (String × JValue) :=
  [("title", .str a.title),
   ("url", .str a.url),
   ("publishedDate", .str a.published_date),
   ("source", .str a.source),
   ("summary", .str a.short_summary),
   ("author", .str (a.author.getD "")),
   ("tags", .list (a.tags.getD [])),
   ("imageUrl", .str (a.image_url.getD ""))]

/-- FeedResult record shape from core/models.py. -/
structure FeedResult where
  articles : List Article
  feed_title : String
  feed_url : String
  fetched_at : PyDateTime
  total_count : Nat
deriving DecidableEq, Repr

/-- FeedResult construction: the dataclass init followed by __post_init__,
which overwrites whatever total_count was passed with len(articles). -/
def FeedResult.make (articles : List Article) (feed_title feed_url : String)
    (fetched_at : PyDateTime) (total_count : Nat) : FeedResult :=
  { articles := articles, feed_title := feed_title, feed_url := feed_url,
    fetched_at := fetched_at, total_count := articles.length }

/-! ## feedparser document model

The adapters read a fixed set of entry fields through .get with defaults
and explicit presence checks. Option distinguishes an absent key from a
present one where the code distinguishes them; fields the code always
reads through .get with a list default are plain lists. -/

/-- An element of entry.tags: either a dict carrying a term key, or
anything else (skipped by every adapter). -/
inductive FeedTag where
  | dictWithTerm : String → FeedTag
  | other : FeedTag
deriving DecidableEq, Repr

/-- An element of entry.categories: a string, a dict with a term key, or
anything else (skipped). -/
inductive FeedCategory where
  | str : String → FeedCategory
  | dictWithTerm : String → FeedCategory
  | other : FeedCategory
deriving DecidableEq, Repr

/-- An element of entry.links: type and rel read through .get with ""
default, href read through .get with None default. -/
structure FeedLink where
  type : String
  rel : String
  href : Option String
deriving DecidableEq, Repr

/-- An element of entry.media_thumbnail: url read through .get. -/
structure MediaThumb where
  url : Option String
deriving DecidableEq, Repr

/-- An element of entry.media_content: type read through .get with ""
default, url read through .get. -/
structure MediaContent where
  type : String
  url : Option String
deriving DecidableEq, Repr

/-- An element of entry.enclosures: type read through .get with ""
default, href read through .get. -/
structure Enclosure where
  type : String
  href : Option String
deriving DecidableEq, Repr

/-- An element of entry.content: value read through .get with "" default. -/
structure ContentBlock where
  value : Option String
deriving DecidableEq, Repr

/-- One parsed feed entry, with exactly the fields the four embedded
adapters read. author_detail carries the optional name sub-field; authors
carries each dict's optional name sub-field (an absent authors key and an
empty authors list are indistinguishable to the code, which guards with
presence-and-nonempty, so both are the empty list). -/
structure Entry where
  title : Option String
  link : Option String
  summary : Option String
  description : Option String
  content : Option (List ContentBlock)
  author : Option String
  author_detail : Option (Option String)
  authors : List (Option String)
  dc_creator : Option String
  published_parsed : Option TimeTuple
  updated_parsed : Option TimeTuple
  tags : List FeedTag
  categories : List FeedCategory
  links : List FeedLink
  media_thumbnail : Option (List MediaThumb)
  media_content : Option (List MediaContent)
  enclosures : List Enclosure
deriving DecidableEq, Repr

/-- Entry with every field absent or empty. -/
def Entry.empty : Entry :=
  { title := none, link := none, summary := none, description := none,
    content := none, author := none, author_detail := none, authors := [],
    dc_creator := none, published_parsed := none, updated_parsed := none,
    tags := [], categories := [], links := [], media_thumbnail := none,
    media_content := none, enclosures := [] }

/-- The feed-level part of a parsed document: f.feed.get title. -/
structure FeedInfo where
  title : Option String
deriving DecidableEq, Repr

/-- A parsed document as returned by feedparser.parse: feed metadata plus
the entry list. -/
structure FeedDoc where
  feed : FeedInfo
  entries : List Entry
deriving DecidableEq, Repr

/-! ## The img-src regex

re.search with pattern <img[^>]+src="([^"]+)" : leftmost match wins; at a
given <img occurrence the greedy class [^>]+ makes the engine take the
last src=" inside the run of non-> characters whose capture (a nonempty
run of non-quote characters closed by a quote) succeeds. -/

/-- The literal part src=" of the pattern. -/
def srcPat : List Char := "src=\"".data

/-- The capture ([^"]+)" : a nonempty run of non-quote characters that is
followed by a closing quote. -/
def captureSrc (cs : List Char) : Option String :=
  let cap := cs.takeWhile (fun c => c ≠ '"')
  if cap.isEmpty then none
  else if (cs.drop cap.length).isEmpty then none
  else some (String.mk cap)

/-- Walk the characters after a literal <img. At each offset at least 1
(the class [^>]+ must consume at least one character) try the literal
src=" plus its capture; keep the latest success (greedy backtracking);
stop at the first > (the class cannot cross it). -/
def imgInner (cs : List Char) (pos : Nat) (best : Option String) : Option String :=
  let attempt : Option String :=
    if 1 ≤ pos && srcPat.isPrefixOf cs then captureSrc (cs.drop 5) else none
  match attempt with
  | some u =>
    match cs with
    | [] => some u
    | c :: rest => if c = '>' then some u else imgInner rest (pos + 1) (some u)
  | none =>
    match cs with
    | [] => best
    | c :: rest => if c = '>' then best else imgInner rest (pos + 1) best

/-- Try the whole pattern at the start of cs. -/
def matchImgAt : List Char → Option String
  | '<' :: 'i' :: 'm' :: 'g' :: rest => imgInner rest 0 none
  | _ => none

/-- Scan left to right for the first position where the pattern matches. -/
def findImgSrcAux : List Char → Option String
  | [] => none
  | c :: rest =>
    match matchImgAt (c :: rest) with
    | some u => some u
    | none => findImgSrcAux rest

/-- re.search for the first img src attribute in an HTML string, returning
the captured group. -/
def findImgSrc (s : String) : Option String := findImgSrcAux s.data

/-! ## feed/qiita.py -/

/-- Qiita summary: entry.get summary with "" default; when falsy and a
content key is present with a nonempty list, the first blocks value. -/
def qiitaSummary (e : Entry) : String :=
  let s := e.summary.getD ""
  if s = "" then
    match e.content with
    | some (c :: _) => c.value.getD ""
    | _ => ""
  else s

/-- Qiita author chain: the author key when present (even if empty), else
author_detail.name, else the first authors entry name, else "". -/
def qiitaAuthor (e : Entry) : String :=
  match e.author with
  | some a => a
  | none =>
    match e.author_detail with
    | some nameOpt => nameOpt.getD ""
    | none =>
      match e.authors with
      | n :: _ => n.getD ""
      | [] => ""

/-- Qiita date: date_field is published_parsed when present and truthy,
else updated_parsed; a chosen field that datetime rejects silently leaves
the datetime.now() default in place. -/
def qiitaPubTime (e : Entry) (now : PyDateTime) : PyDateTime :=
  let date_field :=
    match e.published_parsed with
    | some t => some t
    | none => e.updated_parsed
  match date_field with
  | some t => (mkDatetime t).getD now
  | none => now

/-- The term of each dict-shaped element of entry.tags. -/
def tagTerms (ts : List FeedTag) : List String :=
  ts.filterMap (fun t =>
    match t with
    | .dictWithTerm s => some s
    | .other => none)

/-- The string carried by each usable element of entry.categories. -/
def catStrings (cs : List FeedCategory) : List String :=
  cs.filterMap (fun c =>
    match c with
    | .str s => some s
    | .dictWithTerm s => some s
    | .other => none)

/-- Qiita tag merge: all tags terms, then all categories strings, with no
duplicate check in either loop. -/
def qiitaTags (e : Entry) : List String := tagTerms e.tags ++ catStrings e.categories

/-- First link whose type starts with image/ yields its href (which may
itself be absent); no such link leaves image_url at None. -/
def qiitaLinkImage (links : List FeedLink) : Option String :=
  match links.find? (fun l => l.type.startsWith "image/") with
  | some l => l.href
  | none => none

/-- Qiita image waterfall: the links scan, then, when image_url is still
falsy and the summary is truthy, the img-src regex over the summary; a
failed regex leaves image_url unchanged. -/
def qiitaImage (e : Entry) (summary : String) : Option String :=
  let image_url := qiitaLinkImage e.links
  if pyTruthyStr image_url then image_url
  else if summary ≠ "" then
    match findImgSrc summary with
    | some u => some u
    | none => image_url
  else image_url

/-- QiitaParser.parse_feed over an already-fetched document; now stands
for datetime.now() at fetch time. -/
def QiitaParser.parse_feed (doc : FeedDoc) (url : String) (now : PyDateTime) : FeedResult :=
  let articles := doc.entries.map (fun e =>
    let summary := qiitaSummary e
    ({ title := e.title.getD "",
       url := e.link.getD "",
       published_date := formatDateJa (qiitaPubTime e now),
       source := "qiita",
       summary := some summary,
       author := some (qiitaAuthor e),
       tags := some (qiitaTags e),
       image_url := qiitaImage e summary } : Article))
  FeedResult.make articles (doc.feed.title.getD "Qiita") url now 0

/-! ## feed/zenn.py -/

/-- ZennArticle dataclass from feed/zenn.py: a distinct record shape,
without source, author or tags. -/
structure ZennArticle where
  title : String
  summary : String
  url : String
  published_date : String
  image_url : Option String
  ogp_image_url : Option String
deriving DecidableEq, Repr

/-- Zenn date: only published_parsed is consulted; a rejected tuple keeps
the datetime.now() default. -/
def zennPubTime (e : Entry) (now : PyDateTime) : PyDateTime :=
  match e.published_parsed with
  | some t => (mkDatetime t).getD now
  | none => now

/-- One step of the Zenn links loop: the first image-typed link fixes
image_url (to its possibly-absent href); every enclosure-rel image-typed
link overwrites ogp_image_url. -/
def zennImgStep (st : Option String × Option String) (l : FeedLink) :
    Option String × Option String :=
  let img := if l.type.startsWith "image/" && !(pyTruthyStr st.1) then l.href else st.1
  let ogp := if l.rel == "enclosure" && l.type.startsWith "image/" then l.href else st.2
  (img, ogp)

/-- ZennFeedParser.parse_feed: returns a bare list of ZennArticle, not a
FeedResult. -/
def ZennFeedParser.parse_feed (doc : FeedDoc) (now : PyDateTime) : List ZennArticle :=
  doc.entries.map (fun e =>
    let st := e.links.foldl zennImgStep (none, none)
    { title := e.title.getD "",
      summary := e.summary.getD "",
      url := e.link.getD "",
      published_date := formatDateJa (zennPubTime e now),
      image_url := st.1,
      ogp_image_url := st.2 })

/-! ## feed/googlecloud.py -/

/-- Google Cloud summary: description first, then summary (Python or). -/
def gcSummary (e : Entry) : String :=
  let d := e.description.getD ""
  if d = "" then e.summary.getD "" else d

/-- Google Cloud author: the author key, else, when falsy and a
dc:creator key is present, its value. -/
def gcAuthor (e : Entry) : String :=
  let a := e.author.getD ""
  if a = "" then
    match e.dc_creator with
    | some c => c
    | none => a
  else a

/-- Google Cloud date: only published_parsed is consulted (same logic as
the Zenn adapter). -/
def gcPubTime (e : Entry) (now : PyDateTime) : PyDateTime :=
  match e.published_parsed with
  | some t => (mkDatetime t).getD now
  | none => now

/-- Append a tag term only when it is not already in the list (the chosen
duplicate check of the googlecloud and aws tags loops). -/
def addUnique (acc : List String) (t : String) : List String :=
  if t ∈ acc then acc else acc ++ [t]

/-- Google Cloud tag merge: all categories strings first with no duplicate
check, then each tags term guarded by the duplicate check. -/
def gcTags (e : Entry) : List String :=
  (tagTerms e.tags).foldl addUnique (catStrings e.categories)

/-- Structured thumbnail step shared by googlecloud and aws: a present
media_thumbnail key with a nonempty list yields the first elements url. -/
def mediaThumbImage (e : Entry) : Option String :=
  match e.media_thumbnail with
  | some (t :: _) => t.url
  | _ => none

/-- Enclosure step: when image_url is still falsy, the first image-typed
enclosure fixes it to its href; no match leaves it unchanged. -/
def enclosureStep (e : Entry) (image_url : Option String) : Option String :=
  if pyTruthyStr image_url then image_url
  else
    match e.enclosures.find? (fun en => en.type.startsWith "image/") with
    | some en => en.href
    | none => image_url

/-- Regex step shared by the adapters: runs only when image_url is still
falsy and the summary is truthy; a failed search leaves it unchanged. -/
def regexStep (summary : String) (image_url : Option String) : Option String :=
  if pyTruthyStr image_url then image_url
  else if summary ≠ "" then
    match findImgSrc summary with
    | some u => some u
    | none => image_url
  else image_url

/-- Google Cloud image waterfall: media_thumbnail, then enclosures, then
the img-src regex. -/
def gcImage (e : Entry) (summary : String) : Option String :=
  regexStep summary (enclosureStep e (mediaThumbImage e))

/-- GoogleCloudParser.parse_feed over an already-fetched document. -/
def GoogleCloudParser.parse_feed (doc : FeedDoc) (url lang : String)
    (now : PyDateTime) : FeedResult :=
  let articles := doc.entries.map (fun e =>
    let summary := gcSummary e
    ({ title := e.title.getD "",
       url := e.link.getD "",
       published_date := formatDateJa (gcPubTime e now),
       source := "googlecloud_" ++ lang,
       summary := some summary,
       author := some (gcAuthor e),
       tags := some (gcTags e),
       image_url := gcImage e summary } : Article))
  let feed_title := (doc.feed.title.getD "Google Cloud Blog") ++ " (" ++ lang.toUpper ++ ")"
  FeedResult.make articles feed_title url now 0

/-- FEED_URLS dict of feed/googlecloud.py. -/
def GoogleCloudParser.FEED_URLS : List (String × String) :=
  [("en", "https://cloudblog.withgoogle.com/rss/"),
   ("ja", "https://cloudblog.withgoogle.com/ja/rss/")]

/-- Python errors the embedded entry points can raise. -/
inductive PyError where
  | valueError : String → PyError
deriving DecidableEq, Repr

/-- googlecloud.get_feed: an unsupported language raises ValueError before
parse_feed runs; a supported one fetches and parses the matching URL. fetch
stands for the network access feedparser.parse performs. -/
def googlecloud.get_feed (fetch : String → FeedDoc) (now : PyDateTime)
    (lang : String) : Except PyError FeedResult :=
  match GoogleCloudParser.FEED_URLS.lookup lang with
  | none => .error (.valueError ("Unsupported language: " ++ lang))
  | some url => .ok (GoogleCloudParser.parse_feed (fetch url) url lang now)

/-! ## feed/aws.py -/

/-- AWS summary: summary first, then description (Python or). -/
def awsSummary (e : Entry) : String :=
  let s := e.summary.getD ""
  if s = "" then e.description.getD "" else s

/-- AWS author chain: author, else a present dc:creator key, else (only
when dc:creator is absent) the first authors entry name. -/
def awsAuthor (e : Entry) : String :=
  let a := e.author.getD ""
  if a = "" then
    match e.dc_creator with
    | some c => c
    | none =>
      match e.authors with
      | n :: _ => n.getD ""
      | [] => a
  else a

/-- AWS date: published_parsed when present and truthy (even when the
tuple is then rejected), else updated_parsed; rejections keep now. -/
def awsPubTime (e : Entry) (now : PyDateTime) : PyDateTime :=
  match e.published_parsed with
  | some t => (mkDatetime t).getD now
  | none =>
    match e.updated_parsed with
    | some t => (mkDatetime t).getD now
    | none => now

/-- AWS tag merge: identical loops to the googlecloud adapter. -/
def awsTags (e : Entry) : List String :=
  (tagTerms e.tags).foldl addUnique (catStrings e.categories)

/-- media_content step: when image_url is still falsy and the key is
present, the first image-typed element fixes it to its url. -/
def mediaContentStep (e : Entry) (image_url : Option String) : Option String :=
  if pyTruthyStr image_url then image_url
  else
    match e.media_content with
    | some ms =>
      match ms.find? (fun m => m.type.startsWith "image/") with
      | some m => m.url
      | none => image_url
    | none => image_url

/-- AWS image waterfall: media_thumbnail, then media_content, then
enclosures, then the img-src regex. -/
def awsImage (e : Entry) (summary : String) : Option String :=
  regexStep summary (enclosureStep e (mediaContentStep e (mediaThumbImage e)))

/-- AWSParser.parse_feed over an already-fetched document. -/
def AWSParser.parse_feed (doc : FeedDoc) (url lang : String)
    (now : PyDateTime) : FeedResult :=
  let articles := doc.entries.map (fun e =>
    let summary := awsSummary e
    ({ title := e.title.getD "",
       url := e.link.getD "",
       published_date := formatDateJa (awsPubTime e now),
       source := "aws_" ++ lang,
       summary := some summary,
       author := some (awsAuthor e),
       tags := some (awsTags e),
       image_url := awsImage e summary } : Article))
  let feed_title := (doc.feed.title.getD "AWS Blog") ++ " (" ++ lang.toUpper ++ ")"
  FeedResult.make articles feed_title url now 0

/-- FEED_URLS dict of feed/aws.py. -/
def AWSParser.FEED_URLS : List (String × String) :=
  [("ja", "https://aws.amazon.com/jp/blogs/news/feed/"),
   ("en", "https://aws.amazon.com/jp/blogs/aws/feed/")]

/-- aws.get_feed: same validation shape as googlecloud.get_feed. -/
def aws.get_feed (fetch : String → FeedDoc) (now : PyDateTime)
    (lang : String) : Except PyError FeedResult :=
  match AWSParser.FEED_URLS.lookup lang with
  | none => .error (.valueError ("Unsupported language: " ++ lang))
  | some url => .ok (AWSParser.parse_feed (fetch url) url lang now)

/-! ## Cross-adapter output shape -/

/-- The two return shapes parse_feed has across the adapters: the shared
FeedResult record, or the bare ZennArticle list the zenn module returns. -/
inductive AdapterOutput where
  | feedResult : FeedResult → AdapterOutput
  | zennArticleList : List ZennArticle → AdapterOutput
deriving DecidableEq, Repr

/-- Whether an adapter output is the shared FeedResult shape. -/
def AdapterOutput.isFeedResult : AdapterOutput → Bool
  | .feedResult _ => true
  | .zennArticleList _ => false

/-- QiitaParser.parse_feed viewed as an AdapterOutput. -/
def qiitaParseOutput (doc : FeedDoc) (url : String) (now : PyDateTime) : AdapterOutput :=
  .feedResult (QiitaParser.parse_feed doc url now)

/-- GoogleCloudParser.parse_feed viewed as an AdapterOutput. -/
def gcParseOutput (doc : FeedDoc) (url lang : String) (now : PyDateTime) : AdapterOutput :=
  .feedResult (GoogleCloudParser.parse_feed doc url lang now)

/-- AWSParser.parse_feed viewed as an AdapterOutput. -/
def awsParseOutput (doc : FeedDoc) (url lang : String) (now : PyDateTime) : AdapterOutput :=
  .feedResult (AWSParser.parse_feed doc url lang now)

/-- ZennFeedParser.parse_feed viewed as an AdapterOutput. -/
def zennParseOutput (doc : FeedDoc) (now : PyDateTime) : AdapterOutput :=
  .zennArticleList (ZennFeedParser.parse_feed doc now)

/-! ## Concrete inputs used by the closed theorems below -/

/-- A fixed fetch time. -/
def now0 : PyDateTime := ⟨2021, 6, 7, 8, 9, 10⟩

/-- A convertible time tuple for 2020-01-02 03:04:05. -/
def t2020 : TimeTuple := ⟨2020, 1, 2, 3, 4, 5⟩

/-- A document with no entries and no feed title. -/
def emptyDoc : FeedDoc := ⟨⟨none⟩, []⟩

/-- An entry with only a title set. -/
def entryTitled : Entry := { Entry.empty with title := some "t" }

/-- A one-entry document with a feed title. -/
def docOneEntry : FeedDoc := ⟨⟨some "T"⟩, [entryTitled]⟩

/-- An entry whose tags term also occurs among its categories. -/
def entryTagOverlap : Entry :=
  { Entry.empty with tags := [.dictWithTerm "python"], categories := [.str "python"] }

/-- Document wrapping entryTagOverlap. -/
def docTagOverlap : FeedDoc := ⟨⟨none⟩, [entryTagOverlap]⟩

/-- An entry whose categories hold python once and aws once, and whose
tags term python overlaps the categories. -/
def entryTagOverlapB : Entry :=
  { Entry.empty with
    tags := [.dictWithTerm "python"],
    categories := [.str "python", .str "aws"] }

/-- An entry with no published_parsed and a convertible updated_parsed. -/
def entryUpdatedOnly : Entry := { Entry.empty with updated_parsed := some t2020 }

/-- Document wrapping entryUpdatedOnly. -/
def docUpdatedOnly : FeedDoc := ⟨⟨none⟩, [entryUpdatedOnly]⟩

/-- An entry with both a structured media thumbnail and an embedded img
tag in its summary. -/
def entryThumbAndImg : Entry :=
  { Entry.empty with
    media_thumbnail := some [⟨some "https://t/th.png"⟩],
    summary := some "<img class=\"c\" src=\"https://e/em.png\">" }

/-- A fetch stub returning the empty document for every URL. -/
def fetchA : String → FeedDoc := fun _ => emptyDoc

/-- A second, different fetch stub. -/
def fetchB : String → FeedDoc := fun _ => docOneEntry

/-! ## Helper lemmas -/

/-- Seeding the duplicate-checked tags loop with a list containing t
leaves the number of occurrences of t unchanged. -/
theorem count_foldl_addUnique (t : String) :
    ∀ (l acc : List String), t ∈ acc →
      (l.foldl addUnique acc).count t = acc.count t := by
  intro l
  induction l with
  | nil => intro acc _; rfl
  | cons x xs ih =>
    intro acc hmem
    have hmem2 : t ∈ addUnique acc x := by
      unfold addUnique
      split
      · exact hmem
      · exact List.mem_append_left _ hmem
    have hcount : (addUnique acc x).count t = acc.count t := by
      unfold addUnique
      split
      · rfl
      · rename_i hx
        rw [List.count_append]
        have hxt : x ≠ t := fun h => hx (h ▸ hmem)
        simp [List.count_singleton, hxt]
    calc ((x :: xs).foldl addUnique acc).count t
        = (xs.foldl addUnique (addUnique acc x)).count t := rfl
      _ = (addUnique acc x).count t := ih _ hmem2
      _ = acc.count t := hcount

/-- addUnique on an already-present element is the identity. -/
theorem addUnique_mem {acc : List String} {t : String} (h : t ∈ acc) :
    addUnique acc t = acc := by simp [addUnique, h]

/-- addUnique on a fresh element appends it. -/
theorem addUnique_not_mem {acc : List String} {t : String} (h : t ∉ acc) :
    addUnique acc t = acc ++ [t] := by simp [addUnique, h]

/-- The duplicate-checked tags loop only ever appends: its result extends
the seed list. -/
theorem foldl_addUnique_extends :
    ∀ (l acc : List String), ∃ s, l.foldl addUnique acc = acc ++ s := by
  intro l
  induction l with
  | nil => intro acc; exact ⟨[], by simp⟩
  | cons x xs ih =>
    intro acc
    obtain ⟨s, hs⟩ := ih (addUnique acc x)
    by_cases hx : x ∈ acc
    · refine ⟨s, ?_⟩
      show xs.foldl addUnique (addUnique acc x) = acc ++ s
      rw [addUnique_mem hx] at hs
      rw [addUnique_mem hx]
      exact hs
    · refine ⟨x :: s, ?_⟩
      show xs.foldl addUnique (addUnique acc x) = acc ++ (x :: s)
      rw [addUnique_not_mem hx] at hs
      rw [addUnique_not_mem hx, hs]
      simp

/-! ## Claim theorems -/

/-- C1: every FeedResult has total_count equal to the length of its
articles sequence after construction, whatever total_count value was
passed to the constructor: __post_init__ recomputes it, so the field is
not independently settable through construction. -/
theorem total_count_recomputed (arts : List Article) (ft fu : String)
    (fa : PyDateTime) (tc : Nat) :
    (FeedResult.make arts ft fu fa tc).total_count = arts.length := rfl

/-- C2: for a string summary longer than 150 characters, short_summary is
the first 150 characters followed by the ellipsis marker; for a string
summary of at most 150 characters, short_summary is the summary
unchanged. -/
theorem short_summary_spec (a : Article) (s : String) :
    Article.short_summary { a with summary := some s } =
      if 150 < s.length then pySlice s 150 ++ "..." else s := by
  show (if s = "" then ""
        else if s.length > 150 then pySlice s 150 ++ "..." else s) = _
  by_cases h : s = ""
  · subst h
    simp
  · simp only [if_neg h]

/-- C3: the Zenn adapters parse_feed does not produce the shared
FeedResult record: on the same document for which the Qiita, Google Cloud
and AWS adapters produce a FeedResult, it produces a bare ZennArticle
list. -/
theorem zenn_parse_feed_not_a_feedResult :
    (zennParseOutput docOneEntry now0).isFeedResult = false ∧
    (qiitaParseOutput docOneEntry "u" now0).isFeedResult = true ∧
    (gcParseOutput docOneEntry "u" "en" now0).isFeedResult = true ∧
    (awsParseOutput docOneEntry "u" "ja" now0).isFeedResult = true :=
  ⟨rfl, rfl, rfl, rfl⟩

/-- C8: to_dict never yields null; title, url, publishedDate and source
are carried over as strings; an absent author maps to the empty string,
absent tags to the empty list, an absent image_url to the empty string. -/
theorem to_dict_no_null (a : Article) :
    ((a.to_dict).map Prod.snd).all (fun v => !v.isNull) = true ∧
    (a.to_dict).lookup "title" = some (.str a.title) ∧
    (a.to_dict).lookup "url" = some (.str a.url) ∧
    (a.to_dict).lookup "publishedDate" = some (.str a.published_date) ∧
    (a.to_dict).lookup "source" = some (.str a.source) ∧
    (Article.to_dict { a with author := none }).lookup "author" = some (.str "") ∧
    (Article.to_dict { a with tags := none }).lookup "tags" = some (.list []) ∧
    (Article.to_dict { a with image_url := none }).lookup "imageUrl" = some (.str "") :=
  ⟨rfl, rfl, rfl, rfl, rfl, rfl, rfl, rfl⟩

/-- C9: parsing a document with zero entries yields a FeedResult with an
empty articles list and total_count 0, while feed_title, feed_url and
fetched_at are still populated, in each adapter that returns a
FeedResult. -/
theorem empty_feed_result (ft : Option String) (url lang : String) (now : PyDateTime) :
    QiitaParser.parse_feed ⟨⟨ft⟩, []⟩ url now =
      ⟨[], ft.getD "Qiita", url, now, 0⟩ ∧
    GoogleCloudParser.parse_feed ⟨⟨ft⟩, []⟩ url lang now =
      ⟨[], (ft.getD "Google Cloud Blog") ++ " (" ++ lang.toUpper ++ ")", url, now, 0⟩ ∧
    AWSParser.parse_feed ⟨⟨ft⟩, []⟩ url lang now =
      ⟨[], (ft.getD "AWS Blog") ++ " (" ++ lang.toUpper ++ ")", url, now, 0⟩ :=
  ⟨rfl, rfl, rfl⟩

/-- C4 counterexample: the Qiita adapter appends category strings without
any duplicate check, so a term occurring both as a tags term and as a
category ends up twice in the merged Article.tags, not exactly once. -/
theorem qiita_overlapping_tag_duplicated :
    ((QiitaParser.parse_feed docTagOverlap "u" now0).articles.map Article.tags)
        = [some ["python", "python"]] ∧
    (qiitaTags entryTagOverlap).count "python" = 2 :=
  ⟨by decide, by decide⟩

/-- C4 amended: in the googlecloud and aws adapters a term occurring once
among the category strings and also among the tags terms appears exactly
once in the merged list, at the position it has among the category
strings; the Qiita adapter performs no deduplication, so occurrences from
both fields add up. -/
theorem tag_merge_dedup_amended (e : Entry) (t : String)
    (h1 : (catStrings e.categories).count t = 1)
    (h2 : t ∈ tagTerms e.tags) :
    (gcTags e).count t = 1 ∧
    (gcTags e).indexOf t = (catStrings e.categories).indexOf t ∧
    (awsTags e).count t = 1 ∧
    (qiitaTags e).count t
      = (tagTerms e.tags).count t + (catStrings e.categories).count t := by
  have hmem : t ∈ catStrings e.categories := by
    by_contra hmem
    rw [List.count_eq_zero_of_not_mem hmem] at h1
    exact absurd h1 (by decide)
  have hc := count_foldl_addUnique t (tagTerms e.tags) (catStrings e.categories) hmem
  obtain ⟨s, hs⟩ := foldl_addUnique_extends (tagTerms e.tags) (catStrings e.categories)
  refine ⟨hc.trans h1, ?_, hc.trans h1, List.count_append t _ _⟩
  show ((tagTerms e.tags).foldl addUnique (catStrings e.categories)).indexOf t = _
  rw [hs, List.indexOf_append_of_mem hmem]

/-- C4 amended, at a concrete entry whose categories are python and aws
and whose single tags term is python. -/
theorem tag_merge_dedup_amended_witness :
    ((catStrings entryTagOverlapB.categories).count "python" = 1 ∧
     "python" ∈ tagTerms entryTagOverlapB.tags) ∧
    ((gcTags entryTagOverlapB).count "python" = 1 ∧
     (gcTags entryTagOverlapB).indexOf "python"
       = (catStrings entryTagOverlapB.categories).indexOf "python" ∧
     (awsTags entryTagOverlapB).count "python" = 1 ∧
     (qiitaTags entryTagOverlapB).count "python"
       = (tagTerms entryTagOverlapB.tags).count "python"
         + (catStrings entryTagOverlapB.categories).count "python") :=
  ⟨⟨by decide, by decide⟩,
   tag_merge_dedup_amended entryTagOverlapB "python" (by decide) (by decide)⟩

/-- C5: when an entry carries a structured media thumbnail with a nonempty
url, the googlecloud and aws waterfalls return that url even when the
summary holds an embedded img tag; and when the structured steps all find
nothing, the result is exactly what the img-src regex extracts from the
summary. -/
theorem image_waterfall_structured_first (e : Entry) (s u : String)
    (ts : List MediaThumb)
    (h1 : e.media_thumbnail = some (⟨some u⟩ :: ts))
    (h2 : u ≠ "")
    (h3 : (findImgSrc s).isSome = true) :
    gcImage e s = some u ∧
    awsImage e s = some u ∧
    gcImage { e with media_thumbnail := none, enclosures := [] } s = findImgSrc s ∧
    awsImage { e with media_thumbnail := none, media_content := none, enclosures := [] } s = findImgSrc s := by
  have hthumb : mediaThumbImage e = some u := by
    unfold mediaThumbImage
    rw [h1]
  have htr : pyTruthyStr (some u) = true := by
    simp [pyTruthyStr, h2]
  have hencl : enclosureStep e (some u) = some u := by
    simp [enclosureStep, htr]
  have hmc : mediaContentStep e (some u) = some u := by
    simp [mediaContentStep, htr]
  have hregex : regexStep s (some u) = some u := by
    simp [regexStep, htr]
  obtain ⟨v, hv⟩ := Option.isSome_iff_exists.mp h3
  have hs : s ≠ "" := by
    intro hse
    subst hse
    rw [show findImgSrc "" = none from rfl] at hv
    exact Option.noConfusion hv
  have hregexNone : regexStep s none = findImgSrc s := by
    simp [regexStep, pyTruthyStr, hs, hv]
  refine ⟨?_, ?_, ?_, ?_⟩
  · show regexStep s (enclosureStep e (mediaThumbImage e)) = some u
    rw [hthumb, hencl, hregex]
  · show regexStep s (enclosureStep e (mediaContentStep e (mediaThumbImage e))) = some u
    rw [hthumb, hmc, hencl, hregex]
  · show regexStep s none = findImgSrc s
    exact hregexNone
  · show regexStep s none = findImgSrc s
    exact hregexNone

/-- C5 at a concrete entry carrying both a media thumbnail and an
embedded img tag in its summary. -/
theorem image_waterfall_structured_first_witness :
    (entryThumbAndImg.media_thumbnail = some [⟨some "https://t/th.png"⟩] ∧
     "https://t/th.png" ≠ "" ∧
     (findImgSrc "<img class=\"c\" src=\"https://e/em.png\">").isSome = true) ∧
    (gcImage entryThumbAndImg "<img class=\"c\" src=\"https://e/em.png\">"
        = some "https://t/th.png" ∧
     awsImage entryThumbAndImg "<img class=\"c\" src=\"https://e/em.png\">"
        = some "https://t/th.png" ∧
     gcImage { entryThumbAndImg with media_thumbnail := none, enclosures := [] }
        "<img class=\"c\" src=\"https://e/em.png\">"
        = findImgSrc "<img class=\"c\" src=\"https://e/em.png\">" ∧
     awsImage { entryThumbAndImg with media_thumbnail := none, media_content := none, enclosures := [] }
        "<img class=\"c\" src=\"https://e/em.png\">"
        = findImgSrc "<img class=\"c\" src=\"https://e/em.png\">") :=
  ⟨⟨rfl, by decide, by decide⟩,
   image_waterfall_structured_first entryThumbAndImg
     "<img class=\"c\" src=\"https://e/em.png\">" "https://t/th.png" []
     rfl (by decide) (by decide)⟩

/-- C6 counterexample: on an entry with no published_parsed and a
convertible updated_parsed, the googlecloud and zenn adapters never
consult updated_parsed and format the fetch time instead of the updated
date the claim prescribes. -/
theorem gc_date_ignores_updated_parsed :
    ((GoogleCloudParser.parse_feed docUpdatedOnly "u" "en" now0).articles.map
        Article.published_date) = ["2021年06月07日"] ∧
    ((ZennFeedParser.parse_feed docUpdatedOnly now0).map ZennArticle.published_date)
        = ["2021年06月07日"] ∧
    mkDatetime t2020 = some ⟨2020, 1, 2, 3, 4, 5⟩ ∧
    formatDateJa ⟨2020, 1, 2, 3, 4, 5⟩ = "2020年01月02日" ∧
    ("2021年06月07日" == "2020年01月02日") = false :=
  ⟨by decide, by decide, by decide, by decide, by decide⟩

/-- C6 amended: the qiita and aws adapters try published_parsed and then
updated_parsed; the zenn and googlecloud adapters consult only
published_parsed; in every case a missing or unconvertible value silently
yields the fetch time, and date extraction is total. -/
theorem date_fallback_amended (e : Entry) (now : PyDateTime) (t : TimeTuple) :
    qiitaPubTime { e with published_parsed := none, updated_parsed := none } now = now ∧
    awsPubTime { e with published_parsed := none, updated_parsed := none } now = now ∧
    zennPubTime { e with published_parsed := none } now = now ∧
    gcPubTime { e with published_parsed := none } now = now ∧
    qiitaPubTime { e with published_parsed := none, updated_parsed := some t } now
      = (mkDatetime t).getD now ∧
    awsPubTime { e with published_parsed := none, updated_parsed := some t } now
      = (mkDatetime t).getD now ∧
    zennPubTime { e with published_parsed := none, updated_parsed := some t } now = now ∧
    gcPubTime { e with published_parsed := none, updated_parsed := some t } now = now ∧
    qiitaPubTime { e with published_parsed := some t } now = (mkDatetime t).getD now ∧
    awsPubTime { e with published_parsed := some t } now = (mkDatetime t).getD now ∧
    zennPubTime { e with published_parsed := some t } now = (mkDatetime t).getD now ∧
    gcPubTime { e with published_parsed := some t } now = (mkDatetime t).getD now :=
  ⟨rfl, rfl, rfl, rfl, rfl, rfl, rfl, rfl, rfl, rfl, rfl, rfl⟩

/-- C7: an unsupported language code makes googlecloud.get_feed and
aws.get_feed return the ValueError without consulting the fetch
collaborator (the outcome is the same for any two fetchers), while a
supported code invokes the adapter on the corresponding feed URL. -/
theorem get_feed_language_validation (fetch fetch2 : String → FeedDoc)
    (now : PyDateTime) (lang : String)
    (h1 : lang ≠ "en") (h2 : lang ≠ "ja") :
    googlecloud.get_feed fetch now lang
      = .error (.valueError ("Unsupported language: " ++ lang)) ∧
    googlecloud.get_feed fetch now lang = googlecloud.get_feed fetch2 now lang ∧
    aws.get_feed fetch now lang
      = .error (.valueError ("Unsupported language: " ++ lang)) ∧
    aws.get_feed fetch now lang = aws.get_feed fetch2 now lang ∧
    googlecloud.get_feed fetch now "ja"
      = .ok (GoogleCloudParser.parse_feed
          (fetch "https://cloudblog.withgoogle.com/ja/rss/")
          "https://cloudblog.withgoogle.com/ja/rss/" "ja" now) ∧
    googlecloud.get_feed fetch now "en"
      = .ok (GoogleCloudParser.parse_feed
          (fetch "https://cloudblog.withgoogle.com/rss/")
          "https://cloudblog.withgoogle.com/rss/" "en" now) ∧
    aws.get_feed fetch now "ja"
      = .ok (AWSParser.parse_feed
          (fetch "https://aws.amazon.com/jp/blogs/news/feed/")
          "https://aws.amazon.com/jp/blogs/news/feed/" "ja" now) ∧
    aws.get_feed fetch now "en"
      = .ok (AWSParser.parse_feed
          (fetch "https://aws.amazon.com/jp/blogs/aws/feed/")
          "https://aws.amazon.com/jp/blogs/aws/feed/" "en" now) := by
  have e1 : (lang == "en") = false := beq_eq_false_iff_ne.mpr h1
  have e2 : (lang == "ja") = false := beq_eq_false_iff_ne.mpr h2
  have hg : GoogleCloudParser.FEED_URLS.lookup lang = none := by
    simp [GoogleCloudParser.FEED_URLS, List.lookup, e1, e2]
  have ha : AWSParser.FEED_URLS.lookup lang = none := by
    simp [AWSParser.FEED_URLS, List.lookup, e1, e2]
  refine ⟨?_, ?_, ?_, ?_, rfl, rfl, rfl, rfl⟩
  · simp [googlecloud.get_feed, hg]
  · simp [googlecloud.get_feed, hg]
  · simp [aws.get_feed, ha]
  · simp [aws.get_feed, ha]

/-- C7 at the concrete unsupported code fr with two distinct fetch
stubs. -/
theorem get_feed_language_validation_witness :
    ("fr" ≠ "en" ∧ "fr" ≠ "ja") ∧
    (googlecloud.get_feed fetchA now0 "fr"
        = .error (.valueError ("Unsupported language: " ++ "fr")) ∧
     googlecloud.get_feed fetchA now0 "fr" = googlecloud.get_feed fetchB now0 "fr" ∧
     aws.get_feed fetchA now0 "fr"
        = .error (.valueError ("Unsupported language: " ++ "fr")) ∧
     aws.get_feed fetchA now0 "fr" = aws.get_feed fetchB now0 "fr" ∧
     googlecloud.get_feed fetchA now0 "ja"
        = .ok (GoogleCloudParser.parse_feed
            (fetchA "https://cloudblog.withgoogle.com/ja/rss/")
            "https://cloudblog.withgoogle.com/ja/rss/" "ja" now0) ∧
     googlecloud.get_feed fetchA now0 "en"
        = .ok (GoogleCloudParser.parse_feed
            (fetchA "https://cloudblog.withgoogle.com/rss/")
            "https://cloudblog.withgoogle.com/rss/" "en" now0) ∧
     aws.get_feed fetchA now0 "ja"
        = .ok (AWSParser.parse_feed
            (fetchA "https://aws.amazon.com/jp/blogs/news/feed/")
            "https://aws.amazon.com/jp/blogs/news/feed/" "ja" now0) ∧
     aws.get_feed fetchA now0 "en"
        = .ok (AWSParser.parse_feed
            (fetchA "https://aws.amazon.com/jp/blogs/aws/feed/")
            "https://aws.amazon.com/jp/blogs/aws/feed/" "en" now0)) :=
  ⟨⟨by decide, by decide⟩,
   get_feed_language_validation fetchA fetchB now0 "fr" (by decide) (by decide)⟩

/-- C10: the summary key of to_dict carries short_summary, whose length
never exceeds 153 characters; a missing or empty summary serializes to the
empty string. -/
theorem to_dict_summary_truncated (a : Article) :
    (a.to_dict).lookup "summary" = some (.str a.short_summary) ∧
    a.short_summary.length ≤ 153 ∧
    (Article.to_dict { a with summary := none }).lookup "summary" = some (.str "") ∧
    (Article.to_dict { a with summary := some "" }).lookup "summary" = some (.str "") := by
  refine ⟨rfl, ?_, rfl, rfl⟩
  unfold Article.short_summary
  match a.summary with
  | none => simp
  | some s =>
    by_cases h : s = ""
    · simp [h]
    · simp only [if_neg h]
      by_cases hl : s.length > 150
      · rw [if_pos hl, String.length_append]
        have h1 : (pySlice s 150).length ≤ 150 := by
          rw [show (pySlice s 150).length = (s.data.take 150).length from rfl,
              List.length_take]
          exact min_le_left _ _
        have h2 : ("...").length = 3 := rfl
        omega
      · rw [if_neg hl]
        omega

end Tumu
